import Mathlib

/-!
Shallow embedding of the stream-subscription and control-loop engine of
`src/main.py` (virtual-joystick teleoperation front-end), together with
theorems settling the spec claims about it.

Numeric values (joystick axes, velocities, configured maxima) are modelled
as rationals; raw message payloads and decoded images as natural numbers
(opaque identifiers); the external decoder as an explicit fallible function
parameter.
-/

namespace VirtualJoystick

/-- Module-level constants, `main.py` lines 48-49.  (Declared in the source
but the instance fields below are what the control loop actually uses.) -/
def MAX_LINEAR_VELOCITY_MPS : ℚ := 1/2

/-- Module-level constant, `main.py` line 49. -/
def MAX_ANGULAR_VELOCITY_RPS : ℚ := 1/2

/-- `self.max_speed` as assigned in `KivyVirtualJoystick.__init__`, line 81. -/
def max_speed : ℚ := 1

/-- `self.max_angular_rate` as assigned in `KivyVirtualJoystick.__init__`, line 82. -/
def max_angular_rate : ℚ := 1

/-- `KivyVirtualJoystick.STREAM_NAMES`, line 60. -/
def STREAM_NAMES : List String := ["rgb", "disparity", "left", "right"]

/-- A joystick position sample (`joystick.joystick_pose`), a live 2-D value. -/
structure JoystickSample where
  x : ℚ
  y : ℚ
deriving DecidableEq

/-- The `Twist2d` velocity command message filled in at lines 179-180. -/
structure Twist2d where
  linear_velocity_x : ℚ
  angular_velocity : ℚ
deriving DecidableEq

/-- The velocity computation of `pose_generator`, lines 179-180:
`twist.linear_velocity_x = self.max_speed * joystick.joystick_pose.y` and
`twist.angular_velocity = self.max_angular_rate * -joystick.joystick_pose.x`.
No clamping of the axis values appears in the source. -/
def computeTwist (maxSpeed maxAngularRate : ℚ) (joy : JoystickSample) : Twist2d :=
  { linear_velocity_x := maxSpeed * joy.y
    angular_velocity := maxAngularRate * (-joy.x) }

/-- One delivered vehicle-state message as seen by one iteration of the
`async for` loop of `pose_generator` (lines 168-186): the control state
parsed from the message, the joystick sample read during that iteration,
and whether the `client.request_reply("/twist", twist)` call at line 185
succeeds (raises no exception). -/
structure PoseTick where
  controlState : String
  joy : JoystickSample
  publishOk : Bool
deriving DecidableEq

/-- The telemetry fields written at lines 182-184 (`amiga_state`,
`amiga_speed`, `amiga_rate`); the numeric fields carry the values that the
source formats with `"{:.4f}".format`. -/
structure Telemetry where
  amiga_state : String
  amiga_speed : ℚ
  amiga_rate : ℚ
deriving DecidableEq

/-- Observable outcome of running the `pose_generator` loop over a finite
prefix of delivered vehicle-state messages: the successfully published
twist commands, the telemetry updates performed, and whether the coroutine
terminated with an uncaught exception. -/
structure PoseRunResult where
  publishes : List Twist2d
  telemetry : List Telemetry
  crashed : Bool
deriving DecidableEq

/-- The `pose_generator` loop, lines 168-186, run over a finite prefix of
delivered vehicle-state messages.  Each iteration is driven by the arrival
of one message on the `/state` subscription: it parses the control state,
computes the twist from the current joystick sample (lines 179-180), writes
the three telemetry fields (lines 182-184), then awaits
`client.request_reply("/twist", twist)` (line 185) — which is NOT wrapped
in any try/except, so a publish failure propagates and ends the coroutine —
and finally sleeps one control period (line 186). -/
def pose_generator_run : List PoseTick → PoseRunResult
  | [] => { publishes := [], telemetry := [], crashed := false }
  | t :: rest =>
    let tw := computeTwist max_speed max_angular_rate t.joy
    let tel : Telemetry :=
      { amiga_state := t.controlState
        amiga_speed := tw.linear_velocity_x
        amiga_rate := tw.angular_velocity }
    if t.publishOk then
      let r := pose_generator_run rest
      { publishes := tw :: r.publishes, telemetry := tel :: r.telemetry
        crashed := r.crashed }
    else
      { publishes := [], telemetry := [tel], crashed := true }

/-- A service entry of the `EventServiceConfigList`; only the `name` field
is inspected by `find_config_by_name`, `port` stands for the remaining
payload of a config. -/
structure EventServiceConfig where
  name : String
  port : Nat
deriving DecidableEq

/-- `find_config_by_name`, lines 189-201: iterate over
`service_configs.configs` in order and return the first config whose
`name` equals the requested name, else `None`. -/
def find_config_by_name : List EventServiceConfig → String → Option EventServiceConfig
  | [], _ => none
  | config :: rest, name =>
    if config.name = name then some config else find_config_by_name rest name

/-- The startup sequence of `__main__`, lines 217-233: look up the camera
service config and the canbus service config, raise `RuntimeError` when the
CAMERA config is missing (lines 224-225), and otherwise construct the app —
passing the canbus lookup result through unchecked (it may be `None`) —
and start its tasks. -/
def startupCheck (configs : List EventServiceConfig) (cameraName : String) :
    Except String (EventServiceConfig × Option EventServiceConfig) :=
  let oak := find_config_by_name configs cameraName
  let canbus := find_config_by_name configs "canbus"
  match oak with
  | none => Except.error ("Could not find service config for " ++ cameraName)
  | some o => Except.ok (o, canbus)

/-- Outcome of one iteration of the `stream_camera` message loop for a
single delivered payload (lines 131-150): either the camera's view is not
the active one and the payload is dropped without any further processing
(`skipped`), or the decoder was invoked and raised (`decodeFailed`, caught
and logged at lines 135-137, loop continues), or the decoder succeeded and
the decoded image was blitted into a texture and handed to the display
widget (`displayed`). -/
inductive CameraStep where
  | skipped : CameraStep
  | decodeFailed : String → CameraStep
  | displayed : Nat → CameraStep
deriving DecidableEq

/-- Whether `self.image_decoder.decode` was invoked in this step: it is
invoked exactly in the `view_name == self.view_name` branch (line 131). -/
def CameraStep.decoderInvoked : CameraStep → Bool
  | .skipped => false
  | .decodeFailed _ => true
  | .displayed _ => true

/-- The image handed to the display surface by this step, if any
(line 150 assigns the texture only on the successful-decode path). -/
def CameraStep.handedToDisplay : CameraStep → Option Nat
  | .displayed img => some img
  | _ => none

/-- The body of the `async for` loop of `stream_camera`, lines 131-150, for
one delivered payload.  `decode` is the external image decoder (opaque,
fallible); `active` is the value of `self.view_name` at delivery time;
`viewName` is this camera task's own view name. -/
def stream_camera_step (decode : Nat → Except String Nat)
    (active viewName : String) (payload : Nat) : CameraStep :=
  if viewName = active then
    match decode payload with
    | Except.ok img => CameraStep.displayed img
    | Except.error e => CameraStep.decodeFailed e
  else
    CameraStep.skipped

/-- The `stream_camera` message loop run over a finite prefix of the
subscription's delivered messages; each element pairs the active view name
observed at delivery time with the raw payload.  The loop body never
re-raises (the only fallible call, decode, is wrapped in try/except with
`continue`), so every delivered message is processed. -/
def stream_camera_run (decode : Nat → Except String Nat) (viewName : String) :
    List (String × Nat) → List CameraStep
  | [] => []
  | (active, p) :: rest =>
    stream_camera_step decode active viewName p ::
      stream_camera_run decode viewName rest

/-- The images handed to the display surface over a run, in order. -/
def displayedFrames (steps : List CameraStep) : List Nat :=
  steps.filterMap CameraStep.handedToDisplay

/-- Actions a task performs, for reasoning about the surface-readiness gate:
one poll-sleep of the readiness loop, a subscription to a topic, or any
downstream work (decode/display/publish), abstracted as `work`. -/
inductive TaskAction where
  | pollSleep : TaskAction
  | subscribeTopic : String → TaskAction
  | work : Nat → TaskAction
deriving DecidableEq

/-- The interval (in seconds) of the readiness poll, `asyncio.sleep(0.01)`
at lines 121 and 158. -/
def poll_interval : ℚ := 1/100

/-- The `while self.root is None: await asyncio.sleep(0.01)` gate at lines
120-121 (`stream_camera`) and 157-158 (`pose_generator`).  `ready` is the
successive observations of whether the Kivy root widget exists, one per
loop test; the body of the task runs only once a `true` is observed, and
while every observation is `false` the task has performed nothing but
poll-sleeps. -/
def surface_gate (body : List TaskAction) : List Bool → List TaskAction
  | [] => []
  | true :: _ => body
  | false :: rest => TaskAction.pollSleep :: surface_gate body rest

/-- Action trace of a `stream_camera` task (lines 116-150): the readiness
gate, then the subscription to `/<view_name>` (line 123-129), then the
per-message work `msgActions`. -/
def stream_camera_actions (viewName : String) (ready : List Bool)
    (msgActions : List TaskAction) : List TaskAction :=
  surface_gate (TaskAction.subscribeTopic ("/" ++ viewName) :: msgActions) ready

/-- Action trace of the `pose_generator` task (lines 152-186): the
readiness gate, then the subscription to `/state` (lines 168-172), then the
per-message work `msgActions` (compute, telemetry, publish, sleep). -/
def pose_generator_actions (ready : List Bool)
    (msgActions : List TaskAction) : List TaskAction :=
  surface_gate (TaskAction.subscribeTopic "/state" :: msgActions) ready

/-- Status of one supervised asyncio task. -/
inductive TaskStatus where
  | running : TaskStatus
  | completed : TaskStatus
  | failed : TaskStatus
  | cancelled : TaskStatus
deriving DecidableEq

/-- A task that is still runnable on the event loop. -/
def TaskStatus.isRunnable : TaskStatus → Bool
  | .running => true
  | _ => false

/-- The tasks started by `app_func`, lines 105-112: one `stream_camera`
task per entry of `STREAM_NAMES` plus the `pose_generator` task. -/
def supervisorTasks : List String :=
  STREAM_NAMES.map (fun n => "stream_camera/" ++ n) ++ ["pose_generator"]

/-- `task.cancel()` as applied by `run_wrapper` (lines 100-101): a running
task becomes cancelled; a task that already finished is unaffected. -/
def cancelTask : TaskStatus → TaskStatus
  | .running => .cancelled
  | s => s

/-- The shutdown path of `app_func`'s `run_wrapper` (lines 96-101): after
the Kivy app exits, `task.cancel()` is called on every task in
`self.async_tasks`. -/
def onShutdown (statuses : List TaskStatus) : List TaskStatus :=
  statuses.map cancelTask

/-- Result of awaiting `asyncio.gather` once some child has failed. -/
structure GatherResult where
  propagatedFailure : Bool
  statuses : List TaskStatus
deriving DecidableEq

/-- The failure behaviour of `await asyncio.gather(...)` at line 114.
Modelled from the documented semantics of `asyncio.gather` with the
default `return_exceptions=False`, which is what the source calls: the
first exception raised by a child task is immediately propagated to the
awaiter of `gather()`, and the OTHER awaitables in the sequence are not
cancelled — their statuses are left unchanged and they continue to run. -/
def gatherOnFailure (statuses : List TaskStatus) : GatherResult :=
  { propagatedFailure := statuses.any fun s => s = TaskStatus.failed
    statuses := statuses }

/-! ## Helper lemmas -/

/-- Unfolding lemma for one iteration of the pose-generator loop. -/
theorem pose_generator_run_cons (t : PoseTick) (rest : List PoseTick) :
    pose_generator_run (t :: rest) =
      if t.publishOk then
        { publishes :=
            computeTwist max_speed max_angular_rate t.joy ::
              (pose_generator_run rest).publishes
          telemetry :=
            { amiga_state := t.controlState
              amiga_speed := max_speed * t.joy.y
              amiga_rate := max_angular_rate * (-t.joy.x) } ::
              (pose_generator_run rest).telemetry
          crashed := (pose_generator_run rest).crashed }
      else
        { publishes := []
          telemetry :=
            [{ amiga_state := t.controlState
               amiga_speed := max_speed * t.joy.y
               amiga_rate := max_angular_rate * (-t.joy.x) }]
          crashed := true } := by
  simp only [pose_generator_run, computeTwist]

/-- Scaling a value of magnitude at most one by a nonnegative factor stays
within that factor in magnitude. -/
theorem abs_scaled_le {c v : ℚ} (hc : 0 ≤ c) (hv : |v| ≤ 1) : |c * v| ≤ c := by
  rw [abs_mul, abs_of_nonneg hc]
  exact mul_le_of_le_one_right hc hv

/-- The configured maximum speed used by the control loop is nonnegative. -/
theorem max_speed_nonneg : (0 : ℚ) ≤ max_speed := by norm_num [max_speed]

/-- The configured maximum angular rate used by the control loop is
nonnegative. -/
theorem max_angular_rate_nonneg : (0 : ℚ) ≤ max_angular_rate := by
  norm_num [max_angular_rate]

/-! ## C1 -/

/-- Claim C1: over any run of the control loop whose joystick samples all
lie in [-1, 1] on both axes, every published velocity command equals
(max_speed · y, max_angular_rate · (−x)) for the sample of its tick, and
hence its components are bounded in magnitude by max_speed and
max_angular_rate respectively. -/
theorem C1_published_velocity_formula_and_bounds (ticks : List PoseTick)
    (h : ∀ t ∈ ticks, -1 ≤ t.joy.x ∧ t.joy.x ≤ 1 ∧ -1 ≤ t.joy.y ∧ t.joy.y ≤ 1) :
    ∀ tw ∈ (pose_generator_run ticks).publishes,
      (∃ t ∈ ticks, tw.linear_velocity_x = max_speed * t.joy.y ∧
        tw.angular_velocity = max_angular_rate * (-t.joy.x)) ∧
      |tw.linear_velocity_x| ≤ max_speed ∧
      |tw.angular_velocity| ≤ max_angular_rate := by
  induction ticks with
  | nil =>
    intro tw htw
    simp [pose_generator_run] at htw
  | cons t rest ih =>
    intro tw htw
    rw [pose_generator_run_cons] at htw
    by_cases hp : t.publishOk
    · simp only [hp, if_true, List.mem_cons] at htw
      rcases htw with rfl | htw
      · obtain ⟨hx1, hx2, hy1, hy2⟩ := h t (List.mem_cons_self t rest)
        refine ⟨⟨t, List.mem_cons_self t rest, rfl, rfl⟩, ?_, ?_⟩
        · exact abs_scaled_le max_speed_nonneg (abs_le.mpr ⟨hy1, hy2⟩)
        · have : |(-t.joy.x)| ≤ 1 := by
            rw [abs_neg]; exact abs_le.mpr ⟨hx1, hx2⟩
          exact abs_scaled_le max_angular_rate_nonneg this
      · obtain ⟨⟨t', ht', hf⟩, hb⟩ :=
          ih (fun t' ht' => h t' (List.mem_cons_of_mem t ht')) tw htw
        exact ⟨⟨t', List.mem_cons_of_mem t ht', hf⟩, hb⟩
    · simp [hp] at htw

/-- Witness for C1 at the concrete sample (x = 1, y = −1) with publish
succeeding: the command published on that tick is exactly
(max_speed · (−1), max_angular_rate · (−1)) and both bounds hold. -/
theorem C1_witness :
    (∃ t ∈ [({ controlState := "MANUAL", joy := ⟨1, -1⟩, publishOk := true } :
        PoseTick)],
      (computeTwist max_speed max_angular_rate ⟨1, -1⟩).linear_velocity_x =
        max_speed * t.joy.y ∧
      (computeTwist max_speed max_angular_rate ⟨1, -1⟩).angular_velocity =
        max_angular_rate * (-t.joy.x)) ∧
    |(computeTwist max_speed max_angular_rate ⟨1, -1⟩).linear_velocity_x| ≤
      max_speed ∧
    |(computeTwist max_speed max_angular_rate ⟨1, -1⟩).angular_velocity| ≤
      max_angular_rate :=
  C1_published_velocity_formula_and_bounds
    [{ controlState := "MANUAL", joy := ⟨1, -1⟩, publishOk := true }]
    (by intro t ht; simp at ht; subst ht; norm_num)
    (computeTwist max_speed max_angular_rate ⟨1, -1⟩)
    (by simp [pose_generator_run])

/-! ## C3 -/

/-- Claim C3 fails on the code: no clamping is performed before the
multiplication at lines 179-180.  At the out-of-range sample (x = 0, y = 2)
the published linear velocity is max_speed · 2, which strictly exceeds
max_speed. -/
theorem C3_counterexample :
    max_speed <
      |(computeTwist max_speed max_angular_rate ⟨0, 2⟩).linear_velocity_x| := by
  have h : (computeTwist max_speed max_angular_rate ⟨0, 2⟩).linear_velocity_x
      = 2 := by
    norm_num [computeTwist, max_speed]
  rw [h, abs_of_nonneg (by norm_num : (0 : ℚ) ≤ 2)]
  norm_num [max_speed]

/-- Claim C3 amended: the implementation performs no clamping — each
component is the raw product of the configured maximum and the axis value —
so the bounds |linear_velocity_x| ≤ max_speed and
|angular_velocity| ≤ max_angular_rate are guaranteed only for samples whose
axes lie in [-1, 1]. -/
theorem C3_amended_no_clamp_bounds_in_range (joy : JoystickSample)
    (hx : |joy.x| ≤ 1) (hy : |joy.y| ≤ 1) :
    (computeTwist max_speed max_angular_rate joy).linear_velocity_x =
      max_speed * joy.y ∧
    (computeTwist max_speed max_angular_rate joy).angular_velocity =
      max_angular_rate * (-joy.x) ∧
    |(computeTwist max_speed max_angular_rate joy).linear_velocity_x| ≤
      max_speed ∧
    |(computeTwist max_speed max_angular_rate joy).angular_velocity| ≤
      max_angular_rate := by
  refine ⟨rfl, rfl, abs_scaled_le max_speed_nonneg hy, ?_⟩
  have : |(-joy.x)| ≤ 1 := by rw [abs_neg]; exact hx
  exact abs_scaled_le max_angular_rate_nonneg this

/-- Witness for the amended C3 at the in-range sample (1/2, −1/2). -/
theorem C3_amended_witness :
    (computeTwist max_speed max_angular_rate ⟨1/2, -1/2⟩).linear_velocity_x =
      max_speed * (-1/2) ∧
    (computeTwist max_speed max_angular_rate ⟨1/2, -1/2⟩).angular_velocity =
      max_angular_rate * (-(1/2)) ∧
    |(computeTwist max_speed max_angular_rate ⟨1/2, -1/2⟩).linear_velocity_x| ≤
      max_speed ∧
    |(computeTwist max_speed max_angular_rate ⟨1/2, -1/2⟩).angular_velocity| ≤
      max_angular_rate :=
  C3_amended_no_clamp_bounds_in_range ⟨1/2, -1/2⟩
    (by rw [abs_of_nonneg] <;> norm_num)
    (by rw [abs_of_nonpos] <;> norm_num)

/-! ## C2 -/

/-- Claim C2 fails on the code: the control loop's body is the body of the
`async for` over the `/state` subscription, so the number of published
commands depends on how many vehicle-state messages arrive, not on how many
control periods elapse.  With no vehicle-state message delivered, no
command is ever published, while a single delivered message yields one
publication — publication is coupled to vehicle-state arrival. -/
theorem C2_counterexample :
    (pose_generator_run []).publishes.length ≠
      (pose_generator_run
        [{ controlState := "MANUAL", joy := ⟨0, 0⟩, publishOk := true }]
      ).publishes.length := by
  simp [pose_generator_run]

/-- Claim C2 amended: each iteration of the Running loop is driven by the
receipt of one vehicle-state message; as long as no publish fails, exactly
one velocity command is published and one telemetry update is performed per
delivered vehicle-state message (followed by one control-period sleep), the
loop does not crash, and no command is published in the absence of
vehicle-state messages. -/
theorem C2_amended_one_publish_per_state_message (ticks : List PoseTick)
    (h : ∀ t ∈ ticks, t.publishOk = true) :
    (pose_generator_run ticks).publishes.length = ticks.length ∧
    (pose_generator_run ticks).telemetry.length = ticks.length ∧
    (pose_generator_run ticks).crashed = false := by
  induction ticks with
  | nil => simp [pose_generator_run]
  | cons t rest ih =>
    have hp : t.publishOk = true := h t (List.mem_cons_self t rest)
    obtain ⟨h1, h2, h3⟩ := ih fun t' ht' => h t' (List.mem_cons_of_mem t ht')
    rw [pose_generator_run_cons]
    simp [hp, h1, h2, h3]

/-- Witness for the amended C2 on a concrete two-message run with all
publishes succeeding. -/
theorem C2_amended_witness :
    (pose_generator_run
      [{ controlState := "MANUAL", joy := ⟨0, 0⟩, publishOk := true },
       { controlState := "AUTO", joy := ⟨1, 0⟩, publishOk := true }]
    ).publishes.length = 2 ∧
    (pose_generator_run
      [{ controlState := "MANUAL", joy := ⟨0, 0⟩, publishOk := true },
       { controlState := "AUTO", joy := ⟨1, 0⟩, publishOk := true }]
    ).telemetry.length = 2 ∧
    (pose_generator_run
      [{ controlState := "MANUAL", joy := ⟨0, 0⟩, publishOk := true },
       { controlState := "AUTO", joy := ⟨1, 0⟩, publishOk := true }]
    ).crashed = false :=
  C2_amended_one_publish_per_state_message
    [{ controlState := "MANUAL", joy := ⟨0, 0⟩, publishOk := true },
     { controlState := "AUTO", joy := ⟨1, 0⟩, publishOk := true }]
    (by intro t ht; simp at ht; rcases ht with rfl | rfl <;> rfl)

/-! ## C4 -/

/-- Claim C4 fails on the code: `client.request_reply("/twist", twist)` at
line 185 is not wrapped in any try/except, so a publish failure on the
first delivered message terminates the coroutine; the second message is
never processed (only one telemetry update happens) and nothing further is
published. -/
theorem C4_counterexample :
    (pose_generator_run
      [{ controlState := "MANUAL", joy := ⟨0, 0⟩, publishOk := false },
       { controlState := "MANUAL", joy := ⟨0, 1⟩, publishOk := true }]
    ).crashed = true ∧
    (pose_generator_run
      [{ controlState := "MANUAL", joy := ⟨0, 0⟩, publishOk := false },
       { controlState := "MANUAL", joy := ⟨0, 1⟩, publishOk := true }]
    ).telemetry.length = 1 ∧
    (pose_generator_run
      [{ controlState := "MANUAL", joy := ⟨0, 0⟩, publishOk := false },
       { controlState := "MANUAL", joy := ⟨0, 1⟩, publishOk := true }]
    ).publishes = [] := by
  refine ⟨rfl, rfl, rfl⟩

/-- Claim C4 amended: a publish failure is neither caught nor logged by the
control loop; the exception propagates and terminates the control-loop task
at that iteration — its telemetry update (which precedes the publish call)
is the last one performed, no command is successfully published on or after
that iteration, the remaining delivered messages are never processed, and
the failed command is not retried. -/
theorem C4_amended_publish_failure_kills_loop (t : PoseTick)
    (rest : List PoseTick) (h : t.publishOk = false) :
    pose_generator_run (t :: rest) =
      { publishes := []
        telemetry :=
          [{ amiga_state := t.controlState
             amiga_speed := max_speed * t.joy.y
             amiga_rate := max_angular_rate * (-t.joy.x) }]
        crashed := true } := by
  rw [pose_generator_run_cons]
  simp [h]

/-- Witness for the amended C4: publish fails on the first message while a
second message is pending. -/
theorem C4_amended_witness :
    ({ controlState := "MANUAL", joy := ⟨0, 0⟩, publishOk := false } :
      PoseTick).publishOk = false ∧
    pose_generator_run
      [{ controlState := "MANUAL", joy := ⟨0, 0⟩, publishOk := false },
       { controlState := "AUTO", joy := ⟨0, 1⟩, publishOk := true }] =
      { publishes := []
        telemetry := [{ amiga_state := "MANUAL", amiga_speed := max_speed * 0
                        amiga_rate := max_angular_rate * (-0) }]
        crashed := true } :=
  ⟨rfl,
    C4_amended_publish_failure_kills_loop
      { controlState := "MANUAL", joy := ⟨0, 0⟩, publishOk := false }
      [{ controlState := "AUTO", joy := ⟨0, 1⟩, publishOk := true }] rfl⟩

/-! ## C10 -/

/-- Claim C10: `find_config_by_name` returns the first config in list order
whose name equals the requested name, and returns none exactly when no
config in the list has that name.  (The source function only reads the
list; the embedding is a pure function of it, so the input is unmodified by
construction.) -/
theorem C10_find_config_by_name_first_match (cfgs : List EventServiceConfig)
    (name : String) :
    (∀ c, find_config_by_name cfgs name = some c →
      c.name = name ∧
      ∃ pre suf, cfgs = pre ++ c :: suf ∧ ∀ c' ∈ pre, c'.name ≠ name) ∧
    (find_config_by_name cfgs name = none ↔ ∀ c ∈ cfgs, c.name ≠ name) := by
  induction cfgs with
  | nil => simp [find_config_by_name]
  | cons a rest ih =>
    constructor
    · intro c hc
      by_cases h : a.name = name
      · rw [find_config_by_name, if_pos h] at hc
        obtain rfl : a = c := Option.some.inj hc
        exact ⟨h, [], rest, rfl, by simp⟩
      · rw [find_config_by_name, if_neg h] at hc
        obtain ⟨hcn, pre, suf, heq, hpre⟩ := ih.1 c hc
        refine ⟨hcn, a :: pre, suf, by rw [heq]; rfl, ?_⟩
        intro c' hc'
        rcases List.mem_cons.mp hc' with rfl | h2
        · exact h
        · exact hpre c' h2
    · by_cases h : a.name = name
      · rw [find_config_by_name, if_pos h]
        simp only [List.mem_cons]
        constructor
        · intro hfalse; exact absurd hfalse (by simp)
        · intro hall; exact absurd h (hall a (Or.inl rfl))
      · rw [find_config_by_name, if_neg h]
        rw [ih.2]
        constructor
        · intro hall c hc
          rcases List.mem_cons.mp hc with rfl | h2
          · exact h
          · exact hall c h2
        · intro hall c hc
          exact hall c (List.mem_cons_of_mem a hc)

/-- Witness for C10 on a concrete list with a duplicate name: the first
matching entry is the one returned, the prefix before it contains no
match, and lookup of an absent name yields none. -/
theorem C10_witness :
    ((⟨"oak0", 1⟩ : EventServiceConfig).name = "oak0" ∧
      ∃ pre suf,
        ([⟨"canbus", 0⟩, ⟨"oak0", 1⟩, ⟨"oak0", 2⟩] :
            List EventServiceConfig) = pre ++ ⟨"oak0", 1⟩ :: suf ∧
        ∀ c' ∈ pre, c'.name ≠ "oak0") ∧
    (find_config_by_name [⟨"canbus", 0⟩, ⟨"oak0", 1⟩, ⟨"oak0", 2⟩] "nope" =
      none ↔
      ∀ c ∈ ([⟨"canbus", 0⟩, ⟨"oak0", 1⟩, ⟨"oak0", 2⟩] :
          List EventServiceConfig), c.name ≠ "nope") :=
  ⟨(C10_find_config_by_name_first_match
      [⟨"canbus", 0⟩, ⟨"oak0", 1⟩, ⟨"oak0", 2⟩] "oak0").1
      ⟨"oak0", 1⟩ (by decide),
   (C10_find_config_by_name_first_match
      [⟨"canbus", 0⟩, ⟨"oak0", 1⟩, ⟨"oak0", 2⟩] "nope").2⟩

/-! ## C7 -/

/-- Claim C7 fails on the code: only the CAMERA config lookup is checked at
startup (lines 224-225); the canbus lookup result is passed through
unchecked.  With a config list containing only the camera service, startup
succeeds — no fatal error is raised — even though the vehicle-control
(canbus) service config is missing, and the app's tasks are then started
with `None` as the canbus config. -/
theorem C7_counterexample :
    find_config_by_name [⟨"oak0", 0⟩] "canbus" = none ∧
    startupCheck [⟨"oak0", 0⟩] "oak0" = Except.ok (⟨"oak0", 0⟩, none) := by
  exact ⟨by decide, rfl⟩

/-- Claim C7 amended: a missing camera service config raises a fatal
`RuntimeError` at startup, before any subscriber or control-loop task is
started; a missing canbus service config is NOT checked — startup proceeds,
passing the absent config through as None. -/
theorem C7_amended_only_camera_checked (configs : List EventServiceConfig)
    (cameraName : String) :
    (find_config_by_name configs cameraName = none →
      startupCheck configs cameraName =
        Except.error ("Could not find service config for " ++ cameraName)) ∧
    (∀ o, find_config_by_name configs cameraName = some o →
      startupCheck configs cameraName =
        Except.ok (o, find_config_by_name configs "canbus")) := by
  constructor
  · intro h
    simp [startupCheck, h]
  · intro o h
    simp [startupCheck, h]

/-- Witness for the amended C7: with an empty config list the camera lookup
fails and startup raises; with the camera present and canbus absent it
proceeds. -/
theorem C7_amended_witness :
    startupCheck [] "oak0" =
      Except.error ("Could not find service config for " ++ "oak0") ∧
    startupCheck [⟨"oak0", 7⟩] "oak0" =
      Except.ok (⟨"oak0", 7⟩, find_config_by_name [⟨"oak0", 7⟩] "canbus") :=
  ⟨(C7_amended_only_camera_checked [] "oak0").1 rfl,
   (C7_amended_only_camera_checked [⟨"oak0", 7⟩] "oak0").2 ⟨"oak0", 7⟩
     (by decide)⟩

/-! ## C5 -/

/-- Claim C5: for a delivered camera message, the decoder is invoked
exactly when this camera's view name equals the active view at delivery
time; when the names differ the step is a pure skip — the payload is
discarded without invoking the decoder and nothing is handed to the
display. -/
theorem C5_decode_iff_active_view (decode : Nat → Except String Nat)
    (active viewName : String) (payload : Nat) :
    ((stream_camera_step decode active viewName payload).decoderInvoked =
        true ↔ viewName = active) ∧
    (viewName ≠ active →
      stream_camera_step decode active viewName payload =
          CameraStep.skipped ∧
        (stream_camera_step decode active viewName payload).handedToDisplay =
          none) := by
  constructor
  · by_cases h : viewName = active
    · simp only [stream_camera_step, if_pos h]
      cases decode payload <;> simp [CameraStep.decoderInvoked, h]
    · simp [stream_camera_step, h, CameraStep.decoderInvoked]
  · intro h
    simp [stream_camera_step, h, CameraStep.handedToDisplay]

/-- Witness for C5: a "left" camera task seeing active view "rgb" skips the
payload without decoding or displaying. -/
theorem C5_witness :
    ("left" : String) ≠ "rgb" ∧
    (stream_camera_step (fun n => Except.ok n) "rgb" "left" 5 =
        CameraStep.skipped ∧
      (stream_camera_step (fun n => Except.ok n) "rgb" "left" 5
        ).handedToDisplay = none) :=
  ⟨by decide,
    (C5_decode_iff_active_view (fun n => Except.ok n) "rgb" "left" 5).2
      (by decide)⟩

/-! ## C6 -/

/-- All delivered messages are processed: the camera message loop never
terminates early, whatever the decode outcomes. -/
theorem stream_camera_run_length (decode : Nat → Except String Nat)
    (viewName : String) (msgs : List (String × Nat)) :
    (stream_camera_run decode viewName msgs).length = msgs.length := by
  induction msgs with
  | nil => rfl
  | cons m rest ih =>
    cases m
    simp [stream_camera_run, ih]

/-- Claim C6: a decode failure on one frame is absorbed by the
try/except/continue at lines 133-137 — the remaining messages are
processed exactly as they would be without the failing frame, the failing
frame contributes nothing to the display, and the loop processes every
delivered message (it never terminates on a bad frame). -/
theorem C6_decode_failure_isolated (decode : Nat → Except String Nat)
    (viewName active : String) (p : Nat) (e : String)
    (rest : List (String × Nat)) (h : decode p = Except.error e) :
    stream_camera_run decode viewName ((active, p) :: rest) =
      stream_camera_step decode active viewName p ::
        stream_camera_run decode viewName rest ∧
    displayedFrames (stream_camera_run decode viewName ((active, p) :: rest))
      = displayedFrames (stream_camera_run decode viewName rest) ∧
    (stream_camera_run decode viewName ((active, p) :: rest)).length =
      rest.length + 1 := by
  have hstep : (stream_camera_step decode active viewName p).handedToDisplay
      = none := by
    by_cases hv : viewName = active
    · simp [stream_camera_step, hv, h, CameraStep.handedToDisplay]
    · simp [stream_camera_step, hv, CameraStep.handedToDisplay]
  refine ⟨rfl, ?_, ?_⟩
  · show displayedFrames (stream_camera_step decode active viewName p ::
      stream_camera_run decode viewName rest) = _
    simp [displayedFrames, List.filterMap_cons, hstep]
  · simp [stream_camera_run, stream_camera_run_length]

/-- Witness for C6: with a decoder that fails on payload 7 and succeeds on
payload 8, the failing frame 7 leaves the displayed output of the
subsequent run untouched and both messages are processed. -/
theorem C6_witness :
    stream_camera_run (fun n => if n = 7 then Except.error "bad"
        else Except.ok n) "rgb" [("rgb", 7), ("rgb", 8)] =
      stream_camera_step (fun n => if n = 7 then Except.error "bad"
          else Except.ok n) "rgb" "rgb" 7 ::
        stream_camera_run (fun n => if n = 7 then Except.error "bad"
          else Except.ok n) "rgb" [("rgb", 8)] ∧
    displayedFrames (stream_camera_run (fun n => if n = 7 then
        Except.error "bad" else Except.ok n) "rgb" [("rgb", 7), ("rgb", 8)])
      = displayedFrames (stream_camera_run (fun n => if n = 7 then
          Except.error "bad" else Except.ok n) "rgb" [("rgb", 8)]) ∧
    (stream_camera_run (fun n => if n = 7 then Except.error "bad"
        else Except.ok n) "rgb" [("rgb", 7), ("rgb", 8)]).length =
      [("rgb", 8)].length + 1 :=
  C6_decode_failure_isolated
    (fun n => if n = 7 then Except.error "bad" else Except.ok n)
    "rgb" "rgb" 7 "bad" [("rgb", 8)] rfl

/-! ## C8 -/

/-- The readiness gate emits exactly one poll-sleep per not-ready
observation and releases the body immediately after the first ready
observation. -/
theorem surface_gate_releases_after_ready (body : List TaskAction) (k : Nat)
    (rest : List Bool) :
    surface_gate body (List.replicate k false ++ true :: rest) =
      List.replicate k TaskAction.pollSleep ++ body := by
  induction k with
  | zero => simp [surface_gate]
  | succ n ih => simp [List.replicate_succ, surface_gate, ih]

/-- While the surface has never been observed ready, the gate has emitted
nothing but poll-sleeps. -/
theorem surface_gate_only_polls_while_not_ready (body : List TaskAction)
    (k : Nat) :
    surface_gate body (List.replicate k false) =
      List.replicate k TaskAction.pollSleep := by
  induction k with
  | zero => rfl
  | succ n ih => simp [List.replicate_succ, surface_gate, ih]

/-- Claim C8: while the display surface is not ready, both a camera-stream
task and the control-loop task perform only short poll-sleeps (one per
not-ready observation, at the fixed 10 ms interval, which lies in the
tens-of-milliseconds range); the subscription and all downstream work
(decode/display/publish) happen only strictly after the first ready
observation. -/
theorem C8_no_work_before_surface_ready (viewName : String) (k : Nat)
    (restReady : List Bool) (msgActions : List TaskAction) :
    stream_camera_actions viewName (List.replicate k false ++ true :: restReady)
        msgActions =
      List.replicate k TaskAction.pollSleep ++
        TaskAction.subscribeTopic ("/" ++ viewName) :: msgActions ∧
    stream_camera_actions viewName (List.replicate k false) msgActions =
      List.replicate k TaskAction.pollSleep ∧
    pose_generator_actions (List.replicate k false ++ true :: restReady)
        msgActions =
      List.replicate k TaskAction.pollSleep ++
        TaskAction.subscribeTopic "/state" :: msgActions ∧
    pose_generator_actions (List.replicate k false) msgActions =
      List.replicate k TaskAction.pollSleep ∧
    0 < poll_interval ∧ poll_interval ≤ 1/10 :=
  ⟨surface_gate_releases_after_ready _ k restReady,
   surface_gate_only_polls_while_not_ready _ k,
   surface_gate_releases_after_ready _ k restReady,
   surface_gate_only_polls_while_not_ready _ k,
   by norm_num [poll_interval],
   by norm_num [poll_interval]⟩

/-! ## C9 -/

/-- Claim C9 fails on the code: `asyncio.gather` (line 114, default
`return_exceptions=False`) propagates the first child failure to the
awaiter but does not cancel the sibling tasks.  With the pose-generator
task failed and the four camera tasks still running, the failure is
propagated while runnable tasks remain — contradicting "all remaining
tasks are cancelled ... leaving no task runnable afterward". -/
theorem C9_counterexample :
    (gatherOnFailure
      [TaskStatus.failed, TaskStatus.running, TaskStatus.running,
       TaskStatus.running, TaskStatus.running]).propagatedFailure = true ∧
    ((gatherOnFailure
      [TaskStatus.failed, TaskStatus.running, TaskStatus.running,
       TaskStatus.running, TaskStatus.running]).statuses.any
        TaskStatus.isRunnable) = true :=
  ⟨rfl, rfl⟩

/-- Claim C9 amended: the supervisor starts one task per camera stream plus
one control-loop task and blocks on all of them; when the host application
signals shutdown every started task is cancelled (none remains runnable);
when a task terminates with a failure the failure is propagated to the
awaiter of gather, but the remaining tasks are NOT cancelled — their
statuses are unchanged. -/
theorem C9_amended_supervisor_behaviour (statuses : List TaskStatus) :
    supervisorTasks.length = STREAM_NAMES.length + 1 ∧
    (∀ s ∈ onShutdown statuses, s.isRunnable = false) ∧
    (gatherOnFailure statuses).statuses = statuses ∧
    ((gatherOnFailure statuses).propagatedFailure = true ↔
      TaskStatus.failed ∈ statuses) := by
  refine ⟨rfl, ?_, rfl, ?_⟩
  · intro s hs
    obtain ⟨s', _, rfl⟩ := List.mem_map.mp hs
    cases s' <;> rfl
  · simp [gatherOnFailure, List.any_eq_true]

/-- Witness for the amended C9 on a concrete status vector. -/
theorem C9_amended_witness :
    supervisorTasks.length = STREAM_NAMES.length + 1 ∧
    (∀ s ∈ onShutdown [TaskStatus.running, TaskStatus.failed,
        TaskStatus.completed], s.isRunnable = false) ∧
    (gatherOnFailure [TaskStatus.running, TaskStatus.failed,
        TaskStatus.completed]).statuses =
      [TaskStatus.running, TaskStatus.failed, TaskStatus.completed] ∧
    ((gatherOnFailure [TaskStatus.running, TaskStatus.failed,
        TaskStatus.completed]).propagatedFailure = true ↔
      TaskStatus.failed ∈ [TaskStatus.running, TaskStatus.failed,
        TaskStatus.completed]) :=
  C9_amended_supervisor_behaviour
    [TaskStatus.running, TaskStatus.failed, TaskStatus.completed]

end VirtualJoystick
